import Mathlib

/-!
Shallow embedding of `src/notebook/panel.ts` and `src/notebook/widgetfactory.ts`
of the jupyternotebookJS repository, together with proofs of the behavioural
claims about the completion coordinator, the active-cell rebinder and the
panel orchestrator.

State-carrying TypeScript methods are embedded as pure state-transition
functions; asynchronous effects (kernel calls, dialog prompts, metadata
writes, signal (dis)connections) are made explicit as returned action lists
or counters.  A JavaScript runtime error (property access on `undefined`)
is embedded as an explicit `Bool` flag or an `Option.none` result.
-/

/-- Embedding of `ITextChange` from `src/cells/editor`: the fields of a text
change that `panel.ts` reads (`newValue`, `line`, `ch`). -/
structure ITextChange where
  newValue : String
  line : Nat
  ch : Nat
deriving DecidableEq, Repr

/-- Embedding of `ICompletionRequest` from `src/cells/editor`: the fields that
`panel.ts` reads (`currentValue`, `line`, `ch`). -/
structure ICompletionRequest where
  currentValue : String
  line : Nat
  ch : Nat
deriving DecidableEq, Repr

/-- The `{ start, end }` cursor span stored into the completion model by the
completion-response handler. -/
structure CursorSpan where
  start : Nat
  «end» : Nat
deriving DecidableEq, Repr

/-- Modelled from the spec: the `CompletionState` owned by the completion
widget's model (`CompletionModel` lives in `src/completion`, which is not
part of the provided sources).  Per the spec's data model it has the four
fields `options`, `original`, `current`, `cursor`, each possibly absent;
assignments in `panel.ts` such as `model.options = null` are embedded as
plain field updates.  `isDisposed` is the model's disposal flag tested by
the response handler. -/
structure CompletionModelState where
  options : Option (List String)
  original : Option ICompletionRequest
  current : Option ITextChange
  cursor : Option CursorSpan
  isDisposed : Bool
deriving DecidableEq, Repr

/-- The kernel's reply to a `complete` call: `{status, matches, cursor_start,
cursor_end}` (section 6 of the spec; fields read in `panel.ts`). -/
structure CompleteReply where
  status : String
  «matches» : List String
  cursor_start : Nat
  cursor_end : Nat
deriving DecidableEq, Repr

/-- JavaScript whitespace as tested by `.match(/\S/)` on a single character:
the character classes of `\s` restricted to ASCII (space, tab, newline,
carriage return, vertical tab, form feed).  All inputs considered in this
development are ASCII, for which this agrees with the JS semantics. -/
def jsIsSpace (c : Char) : Bool :=
  c = ' ' || c = '\t' || c = '\n' || c = '\r' || c = '\x0b' || c = '\x0c'

/-- Split a character list at every occurrence of `sep`, keeping empty
segments, as JavaScript `String.prototype.split` does.  Defined by structural
recursion so that concrete instances reduce inside the kernel. -/
def splitOnChar (sep : Char) : List Char → List (List Char)
  | [] => [[]]
  | c :: rest =>
    let r := splitOnChar sep rest
    if c = sep then [] :: r
    else (c :: r.headD []) :: r.tail

/-- Embedding of the JavaScript expression `s.split('\n')`: the lines of `s`
as character lists. -/
def jsSplitLines (s : String) : List (List Char) :=
  splitOnChar '\n' s.data

/-- Embedding of the JavaScript character lookup `line[ch - 1]`: `none` when
the index is out of range, including the `ch = 0` case where `line[-1]` is
`undefined`. -/
def charBefore (line : List Char) (ch : Nat) : Option Char :=
  if ch = 0 then none else line.get? (ch - 1)

/-- Embedding of `NotebookPanel.onTextChange` (panel.ts lines 306-322) as a
transition on the completion model state.  The result is `none` when the
JavaScript code would throw: `change.newValue.split('\n')[change.line]` is
`undefined` when `change.line` is out of range, so the subsequent character
access raises a `TypeError`. -/
def onTextChange (change : ITextChange) (m : CompletionModelState) :
    Option CompletionModelState :=
  match (jsSplitLines change.newValue).get? change.line with
  | none => none
  | some line =>
    match charBefore line change.ch with
    | some c =>
      if jsIsSpace c then
        some { m with options := none, original := none, cursor := none }
      else if m.original.isSome then
        some { m with current := some change }
      else
        some m
    | none => some { m with options := none, original := none, cursor := none }

/-- The payload sent to `kernel.complete` by `onCompletionRequest`: only the
line addressed by `change.line` (`none` when that index is out of range, in
which case JS would send `undefined`), and `change.ch` as the cursor
position. -/
structure KernelCompleteCall where
  code : Option String
  cursor_pos : Nat
deriving DecidableEq, Repr

/-- Embedding of the synchronous request phase of
`NotebookPanel.onCompletionRequest` (panel.ts lines 327-339): given whether a
kernel is attached and the current `_pendingComplete` counter, returns the
new counter together with the issued kernel call and the token captured for
it (`none` when no kernel is attached and the method is a no-op). -/
def onCompletionRequestIssue (kernelAttached : Bool)
    (change : ICompletionRequest) (pendingComplete : Nat) :
    Nat × Option (KernelCompleteCall × Nat) :=
  if !kernelAttached then
    (pendingComplete, none)
  else
    let contents : KernelCompleteCall :=
      { code := ((jsSplitLines change.currentValue).get? change.line).map
          (fun cs => String.mk cs)
        cursor_pos := change.ch }
    let captured := pendingComplete + 1
    (captured, some (contents, captured))

/-- Embedding of the first `.then` block of `onCompletionRequest`'s response
handling (panel.ts lines 339-355): bail out when the model is disposed, when
the captured token is stale, or when the kernel status is not `ok`;
otherwise write `options` and `cursor` from the reply. -/
def completionThen1 (capturedToken currentToken : Nat) (value : CompleteReply)
    (m : CompletionModelState) : CompletionModelState :=
  if m.isDisposed then m
  else if capturedToken ≠ currentToken then m
  else if value.status ≠ "ok" then m
  else { m with options := some value.«matches»
                cursor := some { start := value.cursor_start, «end» := value.cursor_end } }

/-- Embedding of the second, chained `.then` block of `onCompletionRequest`
(panel.ts lines 355-357): it runs after the first block returns — in every
case, including the bail-out paths — and assigns `original`. -/
def completionThen2 (change : ICompletionRequest) (m : CompletionModelState) :
    CompletionModelState :=
  { m with original := some change }

/-- The complete response handling of `onCompletionRequest`: the first `.then`
block followed unconditionally by the chained second one. -/
def onCompletionResponse (capturedToken currentToken : Nat)
    (change : ICompletionRequest) (value : CompleteReply)
    (m : CompletionModelState) : CompletionModelState :=
  completionThen2 change (completionThen1 capturedToken currentToken value m)

/-- A signal-subscription action performed by the active-cell rebinder; cells
are identified by their index in the content widget. -/
inductive SubAction where
  | disconnectText (cell : Nat)
  | disconnectCompletion (cell : Nat)
  | connectText (cell : Nat)
  | connectCompletion (cell : Nat)
deriving DecidableEq, Repr

/-- The `{oldValue, newValue}` payload of an `activeCellIndex` change event. -/
structure RebindArgs where
  oldValue : Nat
  newValue : Nat
deriving DecidableEq, Repr

/-- Embedding of `NotebookPanel.onContentChanged` (panel.ts lines 285-301) for
a content widget with `numCells` cells.  Returns the subscription actions
performed, in order, together with a flag that is `true` when the JavaScript
code would raise: `childAt` returns `undefined` for an out-of-range index and
the code dereferences `cell.editor` without a guard.  A raise at the
`newValue` lookup happens after the old cell was already disconnected. -/
def onContentChanged (name : String) (numCells : Nat) (args : RebindArgs) :
    List SubAction × Bool :=
  if name = "activeCellIndex" then
    if args.oldValue < numCells then
      let disconnects := [SubAction.disconnectText args.oldValue,
                          SubAction.disconnectCompletion args.oldValue]
      if args.newValue < numCells then
        (disconnects ++ [SubAction.connectText args.newValue,
                         SubAction.connectCompletion args.newValue], false)
      else
        (disconnects, true)
    else
      ([], true)
  else
    ([], false)

/-- The observable outcome of `NotebookPanel.restart`: the boolean the promise
resolves to, how many confirmation dialogs were shown, and how many times
`kernel.restart()` was invoked. -/
structure RestartOutcome where
  result : Bool
  dialogsShown : Nat
  restartCalls : Nat
deriving DecidableEq, Repr

/-- Embedding of `NotebookPanel.restart` (panel.ts lines 246-262):
`kernelAttached` is whether `this.context.kernel` is non-null and
`dialogText` the `result.text` the dialog resolves with when shown. -/
def restart (kernelAttached : Bool) (dialogText : String) : RestartOutcome :=
  if !kernelAttached then
    { result := false, dialogsShown := 0, restartCalls := 0 }
  else if dialogText = "OK" then
    { result := true, dialogsShown := 1, restartCalls := 1 }
  else
    { result := false, dialogsShown := 1, restartCalls := 0 }

/-- The scan loop of `trustNotebook` (panel.ts lines 416-423): `trusted`
starts `true` and is set `false` at every cell whose `trusted` metadata flag
is falsy. -/
def trustedScan (cells : List Bool) : Bool :=
  cells.foldl (fun trusted cell => if !cell then false else trusted) true

/-- Embedding of `trustNotebook` (panel.ts lines 413-439): `cells` is the
list of the cells' `trusted` metadata flags and `dialogText` the dialog's
`result.text` when a dialog is shown.  Returns the final flags together with
the number of dialogs shown. -/
def trustNotebook (cells : List Bool) (dialogText : String) :
    List Bool × Nat :=
  if trustedScan cells then
    (cells, 0)
  else if dialogText = "OK" then
    (cells.map (fun _ => true), 1)
  else
    (cells, 1)

/-- A value written into the document metadata store by
`handleKernelChange`. -/
inductive MetaValue where
  | langInfo (info : String)
  | kernelspec (name display_name language : String)
deriving DecidableEq, Repr

/-- The document metadata store: a map from cursor names to values.  A
metadata cursor's `setValue` is embedded as a pointwise update. -/
abbrev MetadataStore : Type := String → Option MetaValue

/-- Embedding of `cursor.setValue` on the metadata cursor for `key`. -/
def setMetadata (store : MetadataStore) (key : String) (v : MetaValue) :
    MetadataStore :=
  fun k => if k = key then some v else store k

/-- The kernel-side data read by `handleKernelChange`: the kernel's `name`,
the `language_info` payload of `kernelInfo()`, and the `display_name` and
`language` of `getKernelSpec()`. -/
structure KernelDescr where
  name : String
  language_info : String
  display_name : String
  language : String
deriving DecidableEq, Repr

/-- The write performed by the `kernelInfo()` continuation of
`handleKernelChange` (panel.ts lines 268-271). -/
def languageInfoWrite (k : KernelDescr) : String × MetaValue :=
  ("language_info", MetaValue.langInfo k.language_info)

/-- The write performed by the `getKernelSpec()` continuation of
`handleKernelChange` (panel.ts lines 272-279). -/
def kernelspecWrite (k : KernelDescr) : String × MetaValue :=
  ("kernelspec", MetaValue.kernelspec k.name k.display_name k.language)

/-- Apply a sequence of metadata writes to the store, in order. -/
def applyWrites (store : MetadataStore) (ws : List (String × MetaValue)) :
    MetadataStore :=
  ws.foldl (fun s kv => setMetadata s kv.1 kv.2) store

/-- Embedding of `NotebookPanel.handleKernelChange` (panel.ts lines 267-280)
as the pair of metadata writes it performs once both kernel fetches resolve.
The two writes come from two independent promise chains, so their relative
order is arbitrary; `handleKernelChange_writes_commute` shows it does not
matter. -/
def handleKernelChangeWrites (k : KernelDescr) : List (String × MetaValue) :=
  [languageInfoWrite k, kernelspecWrite k]

/-- Embedding of the kernel wiring in the `NotebookPanel` constructor
(panel.ts lines 116-121): the `handleKernelChange` calls made synchronously
at construction — one immediately when a kernel is already present on the
context, none otherwise. -/
def constructorKernelInit (kernel : Option KernelDescr) : List KernelDescr :=
  match kernel with
  | some k => [k]
  | none => []

/-- The reference fields of a `NotebookPanel` that `dispose` nulls out,
embedded as presence flags, plus the model reference (which `dispose` does
not touch), the number of times `this._completion.dispose()` has run, and
the widget's `isDisposed` flag (set by `super.dispose()`). -/
structure PanelRefs where
  context : Bool
  rendermime : Bool
  content : Bool
  toolbar : Bool
  clipboard : Bool
  completion : Bool
  modelRef : Bool
  completionDisposeCount : Nat
  isDisposed : Bool
deriving DecidableEq, Repr

/-- Embedding of `NotebookPanel.dispose` (panel.ts lines 229-241): an early
return when already disposed, otherwise null out the references, dispose the
completion widget, and let `super.dispose()` mark the widget disposed. -/
def dispose (st : PanelRefs) : PanelRefs :=
  if st.isDisposed then st
  else
    { st with context := false, rendermime := false, content := false,
              toolbar := false, clipboard := false, completion := false,
              completionDisposeCount := st.completionDisposeCount + 1,
              isDisposed := true }

/-- An observable action performed by `NotebookWidgetFactory.createNew`. -/
inductive FactoryAction where
  | changeKernel (name : String)
  | constructPanel
  | populateToolbar
deriving DecidableEq, Repr

/-- The fields of the notebook model read by `createNew`. -/
structure NotebookModelInfo where
  defaultKernelName : String
  defaultKernelLanguage : String
deriving DecidableEq, Repr

/-- Embedding of `NotebookWidgetFactory.createNew` (widgetfactory.ts lines
69-80) as its list of observable actions, in order.  `findKernel` is the
external `jupyter-js-ui` helper, abstracted as a function of the model's
default kernel name and language (the `context.kernelspecs` argument is
folded into it); `kernelId` is the optional `kernel` parameter, reduced to
its name. -/
def createNew (findKernel : String → String → String)
    (model : NotebookModelInfo) (kernelId : Option String) :
    List FactoryAction :=
  match kernelId with
  | some k =>
    [FactoryAction.changeKernel k, FactoryAction.constructPanel,
     FactoryAction.populateToolbar]
  | none =>
    [FactoryAction.changeKernel
       (findKernel model.defaultKernelName model.defaultKernelLanguage),
     FactoryAction.constructPanel, FactoryAction.populateToolbar]

/-- Embedding of `NotebookWidgetFactory.beforeClose` (widgetfactory.ts lines
88-91): it ignores all three arguments and resolves to `true`. -/
def beforeClose (_model : α) (_context : β) (_widget : γ) : Bool :=
  true

/-- The arguments of the `changeKernel` calls in a factory action list. -/
def changeKernelArgs (acts : List FactoryAction) : List String :=
  acts.filterMap fun a =>
    match a with
    | FactoryAction.changeKernel n => some n
    | _ => none

/-- The actions performed strictly before the panel is constructed. -/
def actionsBeforePanel (acts : List FactoryAction) : List FactoryAction :=
  acts.takeWhile fun a => !(decide (a = FactoryAction.constructPanel))

/-- Concrete input: the completion request whose response arrives stale. -/
def staleChange : ICompletionRequest :=
  { currentValue := "abc", line := 0, ch := 3 }

/-- Concrete input: a successful kernel reply for the stale request. -/
def staleReply : CompleteReply :=
  { status := "ok", «matches» := ["abcdef"], cursor_start := 0, cursor_end := 3 }

/-- Concrete input: a live completion model with no open session. -/
def staleModel : CompletionModelState :=
  { options := none, original := none, current := none, cursor := none,
    isDisposed := false }

/-- Concrete input: the completion request whose response reports an error. -/
def errorChange : ICompletionRequest :=
  { currentValue := "xy", line := 0, ch := 2 }

/-- Concrete input: a kernel reply with a non-ok status. -/
def errorReply : CompleteReply :=
  { status := "error", «matches» := [], cursor_start := 0, cursor_end := 0 }

/-- Concrete input: a live completion model with no open session, used for
the non-ok-status response. -/
def errorModel : CompletionModelState :=
  { options := none, original := none, current := none, cursor := none,
    isDisposed := false }

/-- Concrete input: a text change whose character before the cursor is a
space. -/
def wsChange : ITextChange := { newValue := "ab ", line := 0, ch := 3 }

/-- Concrete input: the text change recorded as `current` before the
whitespace keystroke. -/
def wsPrior : ITextChange := { newValue := "ab", line := 0, ch := 2 }

/-- Concrete input: a completion model with an open session (all four fields
populated). -/
def wsModel : CompletionModelState :=
  { options := some ["abs"],
    original := some { currentValue := "ab", line := 0, ch := 2 },
    current := some wsPrior,
    cursor := some { start := 0, «end» := 2 },
    isDisposed := false }

/-- Concrete input: a text change whose character before the cursor is the
non-whitespace letter `b`. -/
def tcNonWs : ITextChange := { newValue := "ab", line := 0, ch := 2 }

/-- Concrete input: a completion model with `original` set. -/
def mOpen : CompletionModelState :=
  { options := some ["abc"],
    original := some { currentValue := "a", line := 0, ch := 1 },
    current := none,
    cursor := some { start := 0, «end» := 1 },
    isDisposed := false }

/-- Concrete input: a freshly constructed, undisposed panel. -/
def panelRefs0 : PanelRefs :=
  { context := true, rendermime := true, content := true, toolbar := true,
    clipboard := true, completion := true, modelRef := true,
    completionDisposeCount := 0, isDisposed := false }

/-- Concrete input: a completion request used in the witness of the
request-issue contract. -/
def reqW : ICompletionRequest := { currentValue := "pri\nned", line := 1, ch := 2 }

/-- Helper: the scan loop of `trustNotebook` computes the conjunction of all
cells' trusted flags. -/
theorem trustedScan_eq_all (cells : List Bool) :
    trustedScan cells = cells.all id := by
  have h : ∀ (l : List Bool) (b : Bool),
      l.foldl (fun trusted cell => if !cell then false else trusted) b
        = (b && l.all id) := by
    intro l
    induction l with
    | nil => intro b; simp
    | cons c rest ih =>
      intro b
      rw [List.foldl_cons, ih]
      cases c <;> cases b <;> simp
  simpa [trustedScan] using h cells true

/-- C5: `restart()` with no attached kernel resolves to `false` with no
dialog and no kernel restart call; with an attached kernel it shows exactly
one dialog, resolves to `true` precisely when the dialog text is exactly
`OK`, calls the kernel's restart exactly once in that case and zero times
otherwise, and the resolved value coincides with whether restart was
called. -/
theorem restart_contract (t : String) :
    restart false t = { result := false, dialogsShown := 0, restartCalls := 0 } ∧
    (restart true t).dialogsShown = 1 ∧
    (restart true t).result = decide (t = "OK") ∧
    (restart true t).restartCalls = (if t = "OK" then 1 else 0) ∧
    (restart true t).result = decide ((restart true t).restartCalls = 1) := by
  by_cases h : t = "OK" <;> simp [restart, h]

/-- C6: `trustNotebook` shows a dialog exactly when some cell is untrusted;
when all cells are already trusted the flags are returned unchanged with no
prompt, when the prompt is answered `OK` every cell becomes trusted, and on
any other answer the flags are unchanged — never a partial update. -/
theorem trustNotebook_contract (cells : List Bool) (t : String) :
    (trustNotebook cells t).2 = (if cells.all id then 0 else 1) ∧
    (trustNotebook cells t).1 =
      (if cells.all id then cells
       else if t = "OK" then List.replicate cells.length true
       else cells) := by
  by_cases h : cells.all id <;> by_cases ht : t = "OK" <;>
    simp [trustNotebook, trustedScan_eq_all, h, ht, List.map_const']

/-- C9: the first call to `dispose` on an undisposed panel nulls the context,
rendermime, content, toolbar, clipboard and completion references, disposes
the completion widget exactly once, marks the panel disposed, and a second
call is the identity on the result, so disposing twice equals disposing
once. -/
theorem dispose_contract (st : PanelRefs) (h : st.isDisposed = false) :
    (dispose st).context = false ∧ (dispose st).rendermime = false ∧
    (dispose st).content = false ∧ (dispose st).toolbar = false ∧
    (dispose st).clipboard = false ∧ (dispose st).completion = false ∧
    (dispose st).completionDisposeCount = st.completionDisposeCount + 1 ∧
    (dispose st).isDisposed = true ∧
    dispose (dispose st) = dispose st := by
  simp [dispose, h]

/-- Witness for C9 at a concrete undisposed panel. -/
theorem dispose_contract_witness :
    (dispose panelRefs0).context = false ∧ (dispose panelRefs0).rendermime = false ∧
    (dispose panelRefs0).content = false ∧ (dispose panelRefs0).toolbar = false ∧
    (dispose panelRefs0).clipboard = false ∧ (dispose panelRefs0).completion = false ∧
    (dispose panelRefs0).completionDisposeCount = panelRefs0.completionDisposeCount + 1 ∧
    (dispose panelRefs0).isDisposed = true ∧
    dispose (dispose panelRefs0) = dispose panelRefs0 :=
  dispose_contract panelRefs0 rfl

/-- C10: `beforeClose` resolves to `true` for every model, context and
widget, and `createNew` performs exactly one `changeKernel` call, strictly
before the panel is constructed, with the given kernel id when one is
provided and otherwise with the kernel name found from the model's default
kernel name and language. -/
theorem widgetfactory_contract {α β γ : Type} (mo : α) (c : β) (w : γ)
    (f : String → String → String) (m : NotebookModelInfo) (k : String) :
    beforeClose mo c w = true ∧
    changeKernelArgs (createNew f m (some k)) = [k] ∧
    changeKernelArgs (actionsBeforePanel (createNew f m (some k))) = [k] ∧
    changeKernelArgs (createNew f m none) =
      [f m.defaultKernelName m.defaultKernelLanguage] ∧
    changeKernelArgs (actionsBeforePanel (createNew f m none)) =
      [f m.defaultKernelName m.defaultKernelLanguage] ∧
    FactoryAction.constructPanel ∈ createNew f m (some k) ∧
    FactoryAction.constructPanel ∈ createNew f m none := by
  simp [beforeClose, createNew, changeKernelArgs, actionsBeforePanel,
        List.takeWhile, List.filterMap]

/-- C8: `onCompletionRequest` with no attached kernel is a no-op (the token
is unchanged and no kernel call is issued); with a kernel it increments the
pending-request token by exactly one (so the token strictly increases with
each issued request), captures the incremented value as the token paired
with the call, and sends as `code` only the line of the buffer addressed by
`change.line` with `change.ch` as the cursor position. -/
theorem onCompletionRequestIssue_contract (change : ICompletionRequest) (pc : Nat) :
    onCompletionRequestIssue false change pc = (pc, none) ∧
    (onCompletionRequestIssue true change pc).1 = pc + 1 ∧
    pc < (onCompletionRequestIssue true change pc).1 ∧
    (onCompletionRequestIssue true change pc).2 =
      some ({ code := ((jsSplitLines change.currentValue).get? change.line).map
                (fun cs => String.mk cs),
              cursor_pos := change.ch }, pc + 1) := by
  simp [onCompletionRequestIssue]

/-- C7: the two metadata writes of `handleKernelChange` commute (they target
the distinct keys `language_info` and `kernelspec`, so their arbitrary
promise-resolution order does not matter), after both land the store holds
the kernel's language info and kernelspec snapshot, a later kernel
attachment's writes overwrite the earlier values at both keys, and the
constructor triggers one immediate `handleKernelChange` exactly when a
kernel is already present on the context. -/
theorem handleKernelChange_contract (store : MetadataStore) (k k2 : KernelDescr) :
    applyWrites store [languageInfoWrite k, kernelspecWrite k] =
      applyWrites store [kernelspecWrite k, languageInfoWrite k] ∧
    applyWrites store (handleKernelChangeWrites k) "language_info" =
      some (MetaValue.langInfo k.language_info) ∧
    applyWrites store (handleKernelChangeWrites k) "kernelspec" =
      some (MetaValue.kernelspec k.name k.display_name k.language) ∧
    applyWrites (applyWrites store (handleKernelChangeWrites k))
        (handleKernelChangeWrites k2) "language_info" =
      some (MetaValue.langInfo k2.language_info) ∧
    applyWrites (applyWrites store (handleKernelChangeWrites k))
        (handleKernelChangeWrites k2) "kernelspec" =
      some (MetaValue.kernelspec k2.name k2.display_name k2.language) ∧
    constructorKernelInit (some k) = [k] ∧
    constructorKernelInit none = [] := by
  refine ⟨?_, ?_, ?_, ?_, ?_, rfl, rfl⟩
  · funext s
    by_cases h1 : s = "language_info" <;> by_cases h2 : s = "kernelspec" <;>
      simp_all [applyWrites, setMetadata, languageInfoWrite, kernelspecWrite]
  all_goals
    simp [applyWrites, setMetadata, handleKernelChangeWrites,
          languageInfoWrite, kernelspecWrite]

/-- C1 (divergence at the failing input): a response whose captured token 1
is stale — the current token is 2 because a newer request was issued — is
discarded by the first response block, yet the chained second block still
mutates the completion state: `original` changes from absent to the
originating change, while `options`, `current` and `cursor` are left
unchanged. -/
theorem staleResponse_mutates_original :
    (onCompletionResponse 1 2 staleChange staleReply staleModel).original
        = some staleChange ∧
    staleModel.original = none ∧
    (onCompletionResponse 1 2 staleChange staleReply staleModel).options
        = staleModel.options ∧
    (onCompletionResponse 1 2 staleChange staleReply staleModel).cursor
        = staleModel.cursor ∧
    (onCompletionResponse 1 2 staleChange staleReply staleModel).current
        = staleModel.current := by
  simp [onCompletionResponse, completionThen1, completionThen2, staleModel,
        staleChange, staleReply]

/-- C2 (divergence at the failing input): for a current-token response whose
status is not `ok`, the first response block discards the reply without
touching the state, but the chained second block still sets `original` to
the originating change — so an observer sees `original` set while `options`
is absent. -/
theorem errorResponse_sets_original_without_options :
    (onCompletionResponse 1 1 errorChange errorReply errorModel).original
        = some errorChange ∧
    (onCompletionResponse 1 1 errorChange errorReply errorModel).options = none ∧
    completionThen1 1 1 errorReply errorModel = errorModel := by
  simp [onCompletionResponse, completionThen1, completionThen2, errorModel,
        errorChange, errorReply]

/-- C3 (counterexample): on a keystroke whose character before the cursor is
a space, with a fully populated completion state, the handler nulls
`options`, `original` and `cursor` but leaves `current` set — the entire
state is not reset to absent. -/
theorem onTextChange_whitespace_keeps_current :
    onTextChange wsChange wsModel =
      some { options := none, original := none,
             current := some wsPrior, cursor := none, isDisposed := false } ∧
    (onTextChange wsChange wsModel).map CompletionModelState.current
      = some (some wsPrior) := by
  constructor <;> rfl

/-- C3 (amended): when the addressed line exists, `onTextChange` updates
`current` to the change when the character before the cursor exists and is
non-whitespace and a session is open (`original` set), leaves the state
unchanged when no session is open, and otherwise resets `options`,
`original` and `cursor` to absent while leaving `current` unchanged. -/
theorem onTextChange_contract (change : ITextChange) (m : CompletionModelState)
    (line : List Char)
    (h : (jsSplitLines change.newValue).get? change.line = some line) :
    onTextChange change m =
      some (if (charBefore line change.ch).map jsIsSpace = some false then
              (if m.original.isSome then { m with current := some change } else m)
            else { m with options := none, original := none, cursor := none }) := by
  unfold onTextChange
  rw [h]
  cases hc : charBefore line change.ch with
  | none => simp [hc]
  | some c =>
    cases hjs : jsIsSpace c <;> by_cases ho : m.original.isSome <;>
      simp [hc, hjs, ho]

/-- Witness for the amended C3 at a concrete non-whitespace keystroke with an
open session. -/
theorem onTextChange_contract_witness :
    onTextChange tcNonWs mOpen =
      some (if (charBefore ['a', 'b'] tcNonWs.ch).map jsIsSpace = some false then
              (if mOpen.original.isSome then { mOpen with current := some tcNonWs }
               else mOpen)
            else { mOpen with options := none, original := none, cursor := none }) :=
  onTextChange_contract tcNonWs mOpen ['a', 'b'] rfl

/-- C4 (counterexample): when a cell lookup comes back empty the rebind
raises instead of skipping — with one cell, an event with `oldValue = 5`
raises before any subscription change, and an event with `newValue = 7`
raises after the old cell's streams were already disconnected. -/
theorem onContentChanged_missing_cell_raises :
    onContentChanged "activeCellIndex" 1 { oldValue := 5, newValue := 0 }
      = ([], true) ∧
    onContentChanged "activeCellIndex" 1 { oldValue := 0, newValue := 7 }
      = ([SubAction.disconnectText 0, SubAction.disconnectCompletion 0], true) := by
  constructor <;> rfl

/-- C4 (amended): for an `activeCellIndex` change event addressing two
existing cells, the handler disconnects the old cell's text-change and
completion-request streams exactly once each and then connects the new
cell's streams exactly once each, without raising. -/
theorem onContentChanged_contract (n : Nat) (args : RebindArgs)
    (h1 : args.oldValue < n) (h2 : args.newValue < n) :
    onContentChanged "activeCellIndex" n args =
      ([SubAction.disconnectText args.oldValue,
        SubAction.disconnectCompletion args.oldValue,
        SubAction.connectText args.newValue,
        SubAction.connectCompletion args.newValue], false) ∧
    (onContentChanged "activeCellIndex" n args).1.countP
        (fun a => decide (a = SubAction.disconnectText args.oldValue)) = 1 ∧
    (onContentChanged "activeCellIndex" n args).1.countP
        (fun a => decide (a = SubAction.disconnectCompletion args.oldValue)) = 1 ∧
    (onContentChanged "activeCellIndex" n args).1.countP
        (fun a => decide (a = SubAction.connectText args.newValue)) = 1 ∧
    (onContentChanged "activeCellIndex" n args).1.countP
        (fun a => decide (a = SubAction.connectCompletion args.newValue)) = 1 := by
  have e : onContentChanged "activeCellIndex" n args =
      ([SubAction.disconnectText args.oldValue,
        SubAction.disconnectCompletion args.oldValue,
        SubAction.connectText args.newValue,
        SubAction.connectCompletion args.newValue], false) := by
    simp [onContentChanged, h1, h2]
  refine ⟨e, ?_, ?_, ?_, ?_⟩ <;> rw [e] <;>
    simp [List.countP_cons, List.countP_nil]

/-- Witness for the amended C4: rebinding from cell 2 to cell 5 among six
cells. -/
theorem onContentChanged_contract_witness :
    onContentChanged "activeCellIndex" 6 { oldValue := 2, newValue := 5 } =
      ([SubAction.disconnectText 2, SubAction.disconnectCompletion 2,
        SubAction.connectText 5, SubAction.connectCompletion 5], false) ∧
    (onContentChanged "activeCellIndex" 6 { oldValue := 2, newValue := 5 }).1.countP
        (fun a => decide (a = SubAction.disconnectText 2)) = 1 ∧
    (onContentChanged "activeCellIndex" 6 { oldValue := 2, newValue := 5 }).1.countP
        (fun a => decide (a = SubAction.disconnectCompletion 2)) = 1 ∧
    (onContentChanged "activeCellIndex" 6 { oldValue := 2, newValue := 5 }).1.countP
        (fun a => decide (a = SubAction.connectText 5)) = 1 ∧
    (onContentChanged "activeCellIndex" 6 { oldValue := 2, newValue := 5 }).1.countP
        (fun a => decide (a = SubAction.connectCompletion 5)) = 1 :=
  onContentChanged_contract 6 { oldValue := 2, newValue := 5 }
    (by decide) (by decide)
